import Mathlib

/-!
# Verification of the dagmath core

A shallow embedding of the dagmath repository (src/core.ts, src/parser.ts,
src/stdlib.ts): the expression graph (DAG) with its variable table, cycle
detection, generation counter and memoized evaluation, and the
operator-precedence resolver of `Parser.ensureExpr`.

Expression nodes are arena-allocated: every node carries the uuid handed out
by the `Expr` class's static counter (`readonly uuid = Expr.counter++`), and
the graph state stores nodes in an association list keyed by uuid.  Object
identity of the TypeScript heap is therefore uuid equality.  Mutation of a
node's cache fields or of a Var's expression pointer is modelled by shadowing
the binding at the head of the corresponding association list.
-/

namespace DagMath

/-- Payload of a `Value` leaf: the TypeScript `value: any` field as used by the
core (null, booleans, numbers, strings).  Numbers are modelled as integers. -/
inductive Prim where
  | nullP
  | boolP (b : Bool)
  | numP (n : Int)
  | strP (s : String)
deriving DecidableEq, Repr

/-- The structural content of an expression node: the three concrete `Expr`
subclasses of core.ts (`Value`, `VarRef`, `FuncCall`).  `FuncCall` stores the
uuids of its argument nodes. -/
inductive NodeData where
  | value (v : Prim)
  | varref (name : String)
  | funccall (funcname : String) (args : List Nat)
deriving DecidableEq, Repr

/-- One heap node: its structural data together with the mutable cache fields
of the `Expr` base class (`lastEvaluated`, initialised to `-1`, and
`_latestValue`, initialised to the graph's ZERO). -/
structure Node where
  data : NodeData
  lastEvaluated : Int
  cachedValue : Nat
deriving DecidableEq, Repr

/-- `class Units { constructor(public num: string[], public den: string[]) }` -/
structure Units where
  num : List String
  den : List String
deriving DecidableEq, Repr

/-- Errors thrown by the core: `CircularReferenceError` (from `setValue`,
message names the variable) and `InvalidRefError` (from `FuncCall.eval`,
message names the function). -/
inductive DagError where
  | circularRef (varname : String)
  | invalidRef (name : String)
deriving DecidableEq, Repr

/-- The graph state: the `DAG` class of core.ts.  `nullId` … `falseId` are the
uuids of the five singleton fields `NULL/ZERO/ONE/TRUE/FALSE`; `counter` is
the next uuid of the static `Expr.counter`; `nodes` is the heap; `vars`,
`unitsMap` and `funcs` are the three registries.  Units identity is modelled
by interned ids (`unitsMap` maps a key to an id, `unitsStore` holds the
`Units` object allocated for that id).  `funcInvocations` is instrumentation
with no source counterpart: it records the name of every native function
invocation, so that the memoization property ("invokes the function only
once") can be stated; no modelled behaviour reads it. -/
structure DAG where
  lastModified : Int
  nullId : Nat
  zeroId : Nat
  oneId : Nat
  trueId : Nat
  falseId : Nat
  counter : Nat
  nodes : List (Nat × Node)
  vars : List (String × Nat)
  unitsMap : List (String × Nat)
  unitsCounter : Nat
  unitsStore : List (Nat × Units)
  funcs : List (String × (List Prim → Prim))
  funcInvocations : List String

/-- Heap lookup by uuid. -/
def lookupNode (d : DAG) (uid : Nat) : Option Node :=
  d.nodes.lookup uid

/-- Field assignment on a node: shadow its binding at the head of the heap. -/
def setNode (d : DAG) (uid : Nat) (n : Node) : DAG :=
  { d with nodes := (uid, n) :: d.nodes }

/-- `new Value/VarRef/FuncCall(dag, ...)`: allocate a node with the next uuid;
the `Expr` constructor sets `lastEvaluated = -1` and `_latestValue = dag.ZERO`. -/
def allocNode (d : DAG) (data : NodeData) : Nat × DAG :=
  (d.counter,
   { d with
     counter := d.counter + 1,
     nodes := (d.counter, { data := data, lastEvaluated := -1, cachedValue := d.zeroId }) :: d.nodes })

/-- `new DAG()`: field initialisers run in declaration order, so the five
singleton `Value`s receive uuids 0‥4 (`NULL`, `ZERO`, `ONE`, `TRUE`, `FALSE`)
and `lastModified` starts at 0.  (During `NULL`'s construction `this.ZERO` is
not yet assigned; since `Value` overrides `latestValue`, the cache slot of
these five nodes is never read, and we record `zeroId` in it uniformly.) -/
def newDAG : DAG :=
  { lastModified := 0,
    nullId := 0, zeroId := 1, oneId := 2, trueId := 3, falseId := 4,
    counter := 5,
    nodes := [ (0, { data := .value .nullP, lastEvaluated := -1, cachedValue := 1 }),
               (1, { data := .value (.numP 0), lastEvaluated := -1, cachedValue := 1 }),
               (2, { data := .value (.numP 1), lastEvaluated := -1, cachedValue := 1 }),
               (3, { data := .value (.boolP true), lastEvaluated := -1, cachedValue := 1 }),
               (4, { data := .value (.boolP false), lastEvaluated := -1, cachedValue := 1 }) ],
    vars := [], unitsMap := [], unitsCounter := 0, unitsStore := [],
    funcs := [], funcInvocations := [] }

/-- `DAG.newNum`: `return new Value(this, value)` — always a fresh allocation
(the source's TODO "worth creating singletons?" is unimplemented). -/
def newNum (d : DAG) (v : Int) : Nat × DAG :=
  allocNode d (.value (.numP v))

/-- `DAG.newStr`: `return new Value(this, value)`. -/
def newStr (d : DAG) (s : String) : Nat × DAG :=
  allocNode d (.value (.strP s))

/-- `DAG.newBool`: `return value ? this.TRUE : this.FALSE` — no allocation. -/
def newBool (d : DAG) (b : Bool) : Nat × DAG :=
  (if b then d.trueId else d.falseId, d)

/-- `DAG.newFunc`: `return new FuncCall(this, name, args)` — the name is not
validated against the function registry. -/
def newFunc (d : DAG) (name : String) (args : List Nat) : Nat × DAG :=
  allocNode d (.funccall name args)

/-- `DAG.newVarRef`: `return new VarRef(this, varname)`. -/
def newVarRef (d : DAG) (name : String) : Nat × DAG :=
  allocNode d (.varref name)

/-- `DAG.getFunc`: `return this.funcs.get(name) || null`. -/
def getFunc (d : DAG) (name : String) : Option (List Prim → Prim) :=
  d.funcs.lookup name

/-- `DAG.regFunc`: `this.funcs.set(name, f)`. -/
def regFunc (d : DAG) (name : String) (f : List Prim → Prim) : DAG :=
  { d with funcs := (name, f) :: d.funcs }

/-- `DAG.getVar(varname)` without `ensure`: pure lookup, giving the uuid of
the Var's current defining expression. -/
def lookupVar (d : DAG) (name : String) : Option Nat :=
  d.vars.lookup name

/-- The state effect of `DAG.getVar(varname, true)`: if the Var is absent,
create it bound to the graph NULL singleton (`new Var(this, varname, this.NULL)`). -/
def ensureVar (d : DAG) (name : String) : DAG :=
  match d.vars.lookup name with
  | some _ => d
  | none => { d with vars := (name, d.nullId) :: d.vars }

/-- Assignment `v.value = newValue` on the Var named `name`. -/
def setVar (d : DAG) (name : String) (uid : Nat) : DAG :=
  { d with vars := (name, uid) :: d.vars }

/-- The interning key of `DAG.newUnits`: copy both arrays, sort each, and join
as `sortednum.join(":") + "/" + sortedden.join(":")`. -/
def unitsKey (num den : List String) : String :=
  String.intercalate ":" (num.insertionSort (· ≤ ·)) ++ "/" ++
    String.intercalate ":" (den.insertionSort (· ≤ ·))

/-- `DAG.newUnits`: look the key up in `unitsMap`; on a miss allocate
`new Units(num, den)` (storing the original, unsorted lists) and register it.
The returned `Nat` is the identity of the interned `Units` instance. -/
def newUnits (d : DAG) (num den : List String) : Nat × DAG :=
  let key := unitsKey num den
  match d.unitsMap.lookup key with
  | some uid => (uid, d)
  | none =>
    (d.unitsCounter,
     { d with
       unitsMap := (key, d.unitsCounter) :: d.unitsMap,
       unitsStore := (d.unitsCounter, { num := num, den := den }) :: d.unitsStore,
       unitsCounter := d.unitsCounter + 1 })

/-- Short-circuiting disjunction over `Option Bool` results, modelling the
`for ... if (this.exprContainsVar(e, varname)) return true` loop over a
`FuncCall`'s arguments (`none` propagates exhaustion of the recursion fuel). -/
def listAnyOpt (p : Nat → Option Bool) : List Nat → Option Bool
  | [] => some false
  | a :: rest =>
    match p a with
    | none => none
    | some true => some true
    | some false => listAnyOpt p rest

/-- `DAG.exprContainsVar(expr, varname)`: depth-first search for `varname`
over VarRef/FuncCall edges.  A `Value` never matches; a `VarRef` whose name
equals `varname` is a hit; a `VarRef` to a different variable continues into
that variable's current defining expression (via `getVar`); a `FuncCall`
searches its arguments.  The source recurses on the live object graph; here
`fuel` bounds the recursion depth, `none` meaning the bound was exhausted. -/
def exprContainsVarF (fuel : Nat) (d : DAG) (uid : Nat) (varname : String) : Option Bool :=
  match fuel with
  | 0 => none
  | fuel' + 1 =>
    match lookupNode d uid with
    | none => some false
    | some nd =>
      match nd.data with
      | .value _ => some false
      | .varref vname =>
        if vname = varname then some true
        else
          match lookupVar d vname with
          | none => some false
          | some vexpr => exprContainsVarF fuel' d vexpr varname
      | .funccall _ args => listAnyOpt (fun a => exprContainsVarF fuel' d a varname) args
termination_by structural fuel

/-- `DAG.setValue(varname, newValue)`: default a missing expression to NULL
(`newValue = newValue || this.NULL`), fetch-or-create the Var
(`this.getVar(varname, true)`), run the cycle check, and either throw
`CircularReferenceError` (leaving the binding as `getVar` left it) or assign
`v.value = newValue`.  `lastModified` is not touched.  Returns the outcome
paired with the resulting graph state. -/
def setValueF (fuel : Nat) (d : DAG) (varname : String) (newValue : Option Nat) :
    Option (Except DagError Unit × DAG) :=
  let nv := newValue.getD d.nullId
  let d1 := ensureVar d varname
  match exprContainsVarF fuel d1 nv varname with
  | none => none
  | some true => some (.error (.circularRef varname), d1)
  | some false => some (.ok (), setVar d1 varname nv)

/-- Read the payload of a `Value` node. -/
def getPrim (d : DAG) (uid : Nat) : Option Prim :=
  match lookupNode d uid with
  | some nd =>
    match nd.data with
    | .value v => some v
    | _ => none
  | none => none

mutual

/-- `Expr.latestValue` (core.ts 183‑190): `Value` overrides it to return
itself; otherwise, if `lastEvaluated < dag.lastModified` recompute via
`eval()`, store the result in `_latestValue`, restamp `lastEvaluated` with the
current `dag.lastModified`, and return it; else return the cached value.
Returns the uuid of the resulting `Value` node and the updated heap.  `fuel`
bounds the recursion depth (`none` = bound exhausted); a dangling uuid, which
cannot arise from the API, is also `none`. -/
def latestValueF (fuel : Nat) (d : DAG) (uid : Nat) :
    Option (Except DagError (Nat × DAG)) :=
  match fuel with
  | 0 => none
  | fuel' + 1 =>
    match lookupNode d uid with
    | none => none
    | some nd =>
      match nd.data with
      | .value _ => some (.ok (uid, d))
      | _ =>
        if nd.lastEvaluated < d.lastModified then
          match evalF fuel' d uid with
          | none => none
          | some (.error e) => some (.error e)
          | some (.ok (vuid, d1)) =>
            some (.ok (vuid,
              setNode d1 uid { nd with lastEvaluated := d1.lastModified, cachedValue := vuid }))
        else
          some (.ok (nd.cachedValue, d))
termination_by structural fuel

/-- The `eval()` methods of the three `Expr` subclasses.  `Value.eval` returns
itself.  `VarRef.eval` resolves the Var (`getVar`): absent gives the graph
NULL singleton, otherwise the Var's `latestValue` (which is
`this.value.latestValue`).  `FuncCall.eval` first evaluates every argument's
`latestValue` in order, then looks the function up, throwing `InvalidRefError`
when unregistered, and otherwise invokes it on the argument values.
Registered functions are modelled as pure payload transformers
`List Prim → Prim`; as every stdlib function does, the invocation wraps its
result in a freshly allocated `Value` node, and it is recorded in the
`funcInvocations` instrumentation. -/
def evalF (fuel : Nat) (d : DAG) (uid : Nat) :
    Option (Except DagError (Nat × DAG)) :=
  match fuel with
  | 0 => none
  | fuel' + 1 =>
    match lookupNode d uid with
    | none => none
    | some nd =>
      match nd.data with
      | .value _ => some (.ok (uid, d))
      | .varref name =>
        match lookupVar d name with
        | none => some (.ok (d.nullId, d))
        | some vexpr => latestValueF fuel' d vexpr
      | .funccall fname args =>
        match evalArgsF fuel' d args with
        | none => none
        | some (.error e) => some (.error e)
        | some (.ok (vals, d1)) =>
          match getFunc d1 fname with
          | none => some (.error (.invalidRef fname))
          | some f =>
            match vals.mapM (fun v => getPrim d1 v) with
            | none => none
            | some prims =>
              some (.ok (allocNode
                { d1 with funcInvocations := fname :: d1.funcInvocations }
                (.value (f prims))))
termination_by structural fuel

/-- `this.args.map((a) => a.latestValue)`: evaluate the argument list left to
right, threading the heap. -/
def evalArgsF (fuel : Nat) (d : DAG) (args : List Nat) :
    Option (Except DagError (List Nat × DAG)) :=
  match fuel with
  | 0 => none
  | fuel' + 1 =>
    match args with
    | [] => some (.ok ([], d))
    | a :: rest =>
      match latestValueF fuel' d a with
      | none => none
      | some (.error e) => some (.error e)
      | some (.ok (v, d1)) =>
        match evalArgsF fuel' d1 rest with
        | none => none
        | some (.error e) => some (.error e)
        | some (.ok (vs, d2)) => some (.ok (v :: vs, d2))
termination_by structural fuel

end

/-! ## The operator-precedence resolver (`Parser.ensureExpr`, parser.ts) -/

/-- Associativity constants of the `Operator` class:
`LEFT = -1`, `NOASSOC = 0`, `RIGHT = 1`. -/
inductive Assoc where
  | left
  | noassoc
  | right
deriving DecidableEq, Repr

/-- `class Operator { constructor(op, bp, assoc = LEFT, prefixBP = -1) }`:
the binding power `bp`, the associativity, and the binding power `prefixBP`
usable when the operator occurs in leading position (`-1` when unset). -/
structure Operator where
  op : String
  bp : Int
  assoc : Assoc
  prefixBP : Int
deriving DecidableEq, Repr

/-- One item of an `OpExpr` chain: an operator symbol (`isOP[i]` true) or an
already-constructed term expression. -/
inductive Tok (α : Type) where
  | opTok (s : String)
  | termTok (t : α)

/-- The expression tree the resolver builds.  `call s args` embeds
`dag.newFunc(s, args)`; terms are carried opaquely. -/
inductive RTree (α : Type) where
  | term (t : α)
  | call (funcname : String) (args : List (RTree α))

/-- The `throw new Error(...)` sites of `ensureExpr`: unknown operator
(`getOp`), operator in leading position lacking a prefix binding power
(`nud`), non-associative operator in infix position (`led`), `next()` on an
exhausted cursor, and `bpof` applied to a non-operator item. -/
inductive ResolveError where
  | invalidOperator (s : String)
  | notValidLeading (s : String)
  | nonAssoc (s : String)
  | noMoreTokens
  | notAnOperator
deriving DecidableEq, Repr

mutual

/-- `parse(rbp = 0)` of `ensureExpr`: `let t = next(); let left = nud(t);`
then the led loop.  The forward-only cursor is modelled by passing the list
of not-yet-consumed chain items; `fuel` bounds the recursion (`none` = bound
exhausted). -/
def parseChainF {α : Type} (fuel : Nat) (tbl : List (String × Operator)) (rbp : Int)
    (toks : List (Tok α)) : Option (Except ResolveError (RTree α × List (Tok α))) :=
  match fuel with
  | 0 => none
  | fuel' + 1 =>
    match toks with
    | [] => some (.error .noMoreTokens)
    | t :: rest =>
      match nudF fuel' tbl t rest with
      | none => none
      | some (.error e) => some (.error e)
      | some (.ok (left, rest1)) => ledLoopF fuel' tbl rbp left rest1
termination_by structural fuel

/-- `nud(index)`: a term item returns itself; an operator item must be in the
table (`getOp`) and have `prefixBP >= 0`, else the resolver fails; otherwise
build the unary `FuncCall` `op(parse(op.prefixBP))`. -/
def nudF {α : Type} (fuel : Nat) (tbl : List (String × Operator)) (t : Tok α)
    (rest : List (Tok α)) : Option (Except ResolveError (RTree α × List (Tok α))) :=
  match fuel with
  | 0 => none
  | fuel' + 1 =>
    match t with
    | .termTok a => some (.ok (.term a, rest))
    | .opTok s =>
      match tbl.lookup s with
      | none => some (.error (.invalidOperator s))
      | some o =>
        if o.prefixBP < 0 then some (.error (.notValidLeading s))
        else
          match parseChainF fuel' tbl o.prefixBP rest with
          | none => none
          | some (.error e) => some (.error e)
          | some (.ok (e, rest1)) => some (.ok (.call s [e], rest1))
termination_by structural fuel

/-- The loop `while (hasMore() && rbp < bpof(peek())) { t = next(); left =
led(t, left); }` followed by `return left`.  `bpof` fails on a non-operator
item and on an unknown operator; when the lookahead's binding power no longer
strictly exceeds `rbp`, the loop stops without consuming it. -/
def ledLoopF {α : Type} (fuel : Nat) (tbl : List (String × Operator)) (rbp : Int)
    (left : RTree α) (toks : List (Tok α)) :
    Option (Except ResolveError (RTree α × List (Tok α))) :=
  match fuel with
  | 0 => none
  | fuel' + 1 =>
    match toks with
    | [] => some (.ok (left, []))
    | .termTok _ :: _ => some (.error .notAnOperator)
    | .opTok s :: rest =>
      match tbl.lookup s with
      | none => some (.error (.invalidOperator s))
      | some o =>
        if rbp < o.bp then
          match ledF fuel' tbl s left rest with
          | none => none
          | some (.error e) => some (.error e)
          | some (.ok (left1, rest1)) => ledLoopF fuel' tbl rbp left1 rest1
        else
          some (.ok (left, toks))
termination_by structural fuel

/-- `led(index, left)`: look the operator up (`getOp`); LEFT associativity
builds `op(left, parse(op.bp))`, RIGHT builds `op(left, parse(op.bp - 1))`,
NOASSOC is a hard error. -/
def ledF {α : Type} (fuel : Nat) (tbl : List (String × Operator)) (s : String)
    (left : RTree α) (rest : List (Tok α)) :
    Option (Except ResolveError (RTree α × List (Tok α))) :=
  match fuel with
  | 0 => none
  | fuel' + 1 =>
    match tbl.lookup s with
    | none => some (.error (.invalidOperator s))
    | some o =>
      match o.assoc with
      | .left =>
        match parseChainF fuel' tbl o.bp rest with
        | none => none
        | some (.error e) => some (.error e)
        | some (.ok (e, rest1)) => some (.ok (.call s [left, e], rest1))
      | .right =>
        match parseChainF fuel' tbl (o.bp - 1) rest with
        | none => none
        | some (.error e) => some (.error e)
        | some (.ok (e, rest1)) => some (.ok (.call s [left, e], rest1))
      | .noassoc => some (.error (.nonAssoc s))
termination_by structural fuel

end

/-- The tail of `ensureExpr` on an `OpExpr`: `return parse()` — run the climb
with `rbp = 0` from the start of the chain and return the resulting tree. -/
def resolveChain {α : Type} (fuel : Nat) (tbl : List (String × Operator))
    (toks : List (Tok α)) : Option (Except ResolveError (RTree α)) :=
  match parseChainF fuel tbl 0 toks with
  | none => none
  | some (.error e) => some (.error e)
  | some (.ok (e, _)) => some (.ok e)

/-! ## Concrete material: stdlib `Plus`, the standard operator table, and the
scenario states used by the claims -/

/-- The payload of a `Value` read as a number (`v.value` in numeric context;
the scenarios only ever apply it to numeric payloads). -/
def primNum : Prim → Int
  | .numP n => n
  | _ => 0

/-- stdlib `Plus`: `out = 0; for (const v of args) out += v.value`. -/
def plusPrim : List Prim → Prim :=
  fun args => .numP (args.foldl (fun acc v => acc + primNum v) 0)

/-- The operator table of the spec's resolver test fixture:
`+`/`-` bp 10 LEFT with leading bp 100, `*`/`/` bp 30 LEFT,
`^` bp 40 LEFT, `|` bp 50 LEFT. -/
def stdTable : List (String × Operator) :=
  [ ("+", { op := "+", bp := 10, assoc := .left, prefixBP := 100 }),
    ("-", { op := "-", bp := 10, assoc := .left, prefixBP := 100 }),
    ("*", { op := "*", bp := 30, assoc := .left, prefixBP := -1 }),
    ("/", { op := "/", bp := 30, assoc := .left, prefixBP := -1 }),
    ("^", { op := "^", bp := 40, assoc := .left, prefixBP := -1 }),
    ("|", { op := "|", bp := 50, assoc := .left, prefixBP := -1 }) ]

/-- State after a `setValue` call, for building scenarios (the fallback is
never reached in the concrete states below). -/
def afterSet (fuel : Nat) (d : DAG) (name : String) (e : Option Nat) : DAG :=
  ((setValueF fuel d name e).map Prod.snd).getD d

/-- Result of a successful `latestValue` read, for building scenarios (the
fallback is never reached in the concrete states below). -/
def evalRes (r : Option (Except DagError (Nat × DAG))) (fb : DAG) : Nat × DAG :=
  match r with
  | some (.ok p) => p
  | _ => (0, fb)

/-- Scenario of the acyclicity test: a graph with `+` registered and
`x = 3` (uuid 5), `y = 5` (uuid 6), `z = +(VarRef x, VarRef y)`
(VarRefs uuid 7, 8, the call uuid 9), then a `VarRef z` (uuid 10) intended
as the new definition of `x`. -/
def cyc0 : DAG := regFunc newDAG "+" plusPrim
def cyc1 : DAG := afterSet 9 (newNum cyc0 3).2 "x" (some 5)
def cyc2 : DAG := afterSet 9 (newNum cyc1 5).2 "y" (some 6)
def cyc3 : DAG := afterSet 9 (newFunc (newVarRef (newVarRef cyc2 "x").2 "y").2 "+" [7, 8]).2 "z" (some 9)
def cyc4 : DAG := (newVarRef cyc3 "z").2

/-- Scenario of the memoization test: a graph with `+` registered,
`x = 3` (uuid 5), and the expression `+(VarRef x, 2)` (VarRef uuid 6, the
literal 2 uuid 7, the call uuid 8). -/
def memo0 : DAG := regFunc newDAG "+" plusPrim
def memo1 : DAG := afterSet 9 (newNum memo0 3).2 "x" (some 5)
def memo2 : DAG := (newFunc (newNum (newVarRef memo1 "x").2 2).2 "+" [6, 7]).2

/-- First read of `+(x, 2)`. -/
def memoR1 : Nat × DAG := evalRes (latestValueF 12 memo2 8) memo2

/-- Second read, no intervening redefinition. -/
def memoR2 : Nat × DAG := evalRes (latestValueF 12 memoR1.2 8) memoR1.2

/-- Redefine `x` to the fresh literal 10 (uuid 10), then read again. -/
def memo3 : DAG := afterSet 9 (newNum memoR2.2 10).2 "x" (some 10)
def memoR3 : Nat × DAG := evalRes (latestValueF 12 memo3 8) memo3

/-- Scenario of the invalid-reference test: a graph where `f` is registered
but `g` is not, with the literal 3 (uuid 5), the call `g(3)` (uuid 6), and
the call `f(g(3))` (uuid 7). -/
def constZero : List Prim → Prim := fun _ => .numP 0
def ivr0 : DAG := regFunc newDAG "f" constZero
def ivr1 : DAG := (newFunc (newFunc (newNum ivr0 3).2 "g" [5]).2 "f" [6]).2

/-- Companion scenario with a registered call `f(3)`: the literal 3 (uuid 5)
and the call `f(3)` (uuid 6). -/
def ivrOK : DAG := (newFunc (newNum ivr0 3).2 "f" [5]).2

/-! ## Helper lemmas -/

theorem lookup_cons_self {α β : Type} [BEq α] [LawfulBEq α] (k : α) (v : β)
    (l : List (α × β)) : List.lookup k ((k, v) :: l) = some v := by
  simp [List.lookup]

theorem lookup_cons_ne {α β : Type} [BEq α] [LawfulBEq α] (k q : α) (v : β)
    (l : List (α × β)) (h : q ≠ k) : List.lookup q ((k, v) :: l) = List.lookup q l := by
  have hb : (q == k) = false := beq_eq_false_iff_ne.mpr h
  simp [List.lookup, hb]

theorem ensureVar_lastModified (d : DAG) (name : String) :
    (ensureVar d name).lastModified = d.lastModified := by
  unfold ensureVar
  cases d.vars.lookup name <;> rfl

theorem ensureVar_nullId (d : DAG) (name : String) :
    (ensureVar d name).nullId = d.nullId := by
  unfold ensureVar
  cases d.vars.lookup name <;> rfl

theorem ensureVar_preserves_bindings (d : DAG) (name v : String) (old : Nat)
    (h : lookupVar d v = some old) : lookupVar (ensureVar d name) v = some old := by
  unfold ensureVar lookupVar at *
  cases hl : d.vars.lookup name with
  | some u => simpa [hl] using h
  | none =>
    have hv : v ≠ name := by
      intro he
      rw [he, hl] at h
      exact Option.noConfusion h
    simp only [hl]
    rw [lookup_cons_ne _ _ _ _ hv]
    exact h

theorem insertionSort_eq_of_perm (l1 l2 : List String) (h : l1.Perm l2) :
    l1.insertionSort (· ≤ ·) = l2.insertionSort (· ≤ ·) :=
  List.eq_of_perm_of_sorted
    ((List.perm_insertionSort _ l1).trans (h.trans (List.perm_insertionSort _ l2).symm))
    (List.sorted_insertionSort _ l1) (List.sorted_insertionSort _ l2)

theorem unitsKey_eq_of_perm (n1 d1 n2 d2 : List String)
    (hn : n1.Perm n2) (hd : d1.Perm d2) : unitsKey n1 d1 = unitsKey n2 d2 := by
  unfold unitsKey
  rw [insertionSort_eq_of_perm n1 n2 hn, insertionSort_eq_of_perm d1 d2 hd]

/-! ## Claims -/

/-- C1.  If the depth-first search of `exprContainsVar` (over VarRef/FuncCall
edges, starting at the new defining expression, with variable references to
other bound variables followed into their current definitions) reaches the
variable being defined, then `setValue` fails with a circular-reference error
naming that variable, and every variable binding that existed before the call
is unchanged afterwards (the new expression is not installed). -/
theorem setValue_circular_rejects (fuel : Nat) (d : DAG) (varname : String)
    (newValue : Option Nat)
    (h : exprContainsVarF fuel (ensureVar d varname) (newValue.getD d.nullId) varname
         = some true) :
    setValueF fuel d varname newValue
      = some (.error (.circularRef varname), ensureVar d varname) ∧
    ∀ v old, lookupVar d v = some old → lookupVar (ensureVar d varname) v = some old := by
  constructor
  · unfold setValueF
    simp only [h]
  · intro v old hv
    exact ensureVar_preserves_bindings d varname v old hv

/-- Witness for C1, at the spec's acyclicity scenario: after `x = 3`,
`y = 5`, `z = +(x, y)`, redefining `x` to `VarRef z` (uuid 10) fails with
the circular-reference error for `x`, and `x` remains bound to the literal-3
node (uuid 5, payload 3). -/
theorem setValue_circular_rejects_witness :
    setValueF 9 cyc4 "x" (some 10)
      = some (.error (.circularRef "x"), ensureVar cyc4 "x") ∧
    lookupVar (ensureVar cyc4 "x") "x" = some 5 ∧
    getPrim (ensureVar cyc4 "x") 5 = some (.numP 3) := by
  have h := setValue_circular_rejects 9 cyc4 "x" (some 10) (by rfl)
  exact ⟨h.1, h.2 "x" 5 (by rfl), by rfl⟩

/-- C2.  Contrary to the claim, `setValue` never increments the generation
counter: `DAG.lastModified` is initialised to 0 and no code path in the
repository ever assigns to it, so any successful (or failed) `setValue` call
leaves it exactly as it was. -/
theorem setValue_preserves_lastModified (fuel : Nat) (d : DAG) (varname : String)
    (newValue : Option Nat) (r : Except DagError Unit × DAG)
    (h : setValueF fuel d varname newValue = some r) :
    r.2.lastModified = d.lastModified := by
  unfold setValueF at h
  rcases hc : exprContainsVarF fuel (ensureVar d varname) (newValue.getD d.nullId) varname with
    _ | b
  · simp only [hc] at h
    exact Option.noConfusion h
  · simp only [hc] at h
    cases b
    · rw [Option.some_inj] at h
      rw [← h]
      exact ensureVar_lastModified d varname
    · rw [Option.some_inj] at h
      rw [← h]
      exact ensureVar_lastModified d varname

/-- Witness for C2: a successful definition `x = 3` on a fresh graph leaves
`lastModified` at its initial value 0 — it is not strictly larger. -/
theorem setValue_preserves_lastModified_witness :
    setValueF 9 (newNum newDAG 3).2 "x" (some 5)
      = some (.ok (), setVar (ensureVar (newNum newDAG 3).2 "x") "x" 5) ∧
    (setVar (ensureVar (newNum newDAG 3).2 "x") "x" 5).lastModified
      = ((newNum newDAG 3).2).lastModified := by
  refine ⟨by rfl, ?_⟩
  exact setValue_preserves_lastModified 9 (newNum newDAG 3).2 "x" (some 5) _ (by rfl)

/-- C10.  When `setValue(name, newExpr)` fails with the circular-reference
error and no Var named `name` existed beforehand, the variable table of the
resulting state does contain `name`, bound to the graph NULL singleton: the
fetch-or-create of `getVar(name, true)` runs before the cycle check. -/
theorem failed_fresh_setValue_creates_null_var (fuel : Nat) (d : DAG)
    (varname : String) (newValue : Option Nat) (d' : DAG)
    (h0 : lookupVar d varname = none)
    (h : setValueF fuel d varname newValue = some (.error (.circularRef varname), d')) :
    lookupVar d' varname = some d.nullId := by
  unfold setValueF at h
  rcases hc : exprContainsVarF fuel (ensureVar d varname) (newValue.getD d.nullId) varname with
    _ | b
  · simp only [hc] at h
    exact Option.noConfusion h
  · simp only [hc] at h
    cases b
    · rw [Option.some_inj] at h
      injection h with ha hb
      exact Except.noConfusion ha
    · rw [Option.some_inj] at h
      injection h with ha hb
      rw [← hb]
      unfold ensureVar lookupVar
      unfold lookupVar at h0
      simp only [h0]
      exact lookup_cons_self varname d.nullId d.vars

/-- Witness for C10: defining a fresh `w` as `VarRef w` (uuid 5) fails with
the circular-reference error, yet afterwards `w` is present in the table,
bound to the NULL singleton (uuid 0). -/
theorem failed_fresh_setValue_creates_null_var_witness :
    lookupVar (newVarRef newDAG "w").2 "w" = none ∧
    setValueF 9 (newVarRef newDAG "w").2 "w" (some 5)
      = some (.error (.circularRef "w"), ensureVar (newVarRef newDAG "w").2 "w") ∧
    lookupVar (ensureVar (newVarRef newDAG "w").2 "w") "w"
      = some ((newVarRef newDAG "w").2).nullId :=
  ⟨rfl, rfl,
   failed_fresh_setValue_creates_null_var 9 (newVarRef newDAG "w").2 "w" (some 5) _ rfl rfl⟩

/-- C6 counterexample.  On a fresh graph, constructing the number literal 0
through `newNum` does not return the ZERO singleton (it allocates uuid 5,
while ZERO is uuid 1); likewise 1 is not the ONE singleton; and constructing
0 twice yields two distinct instances. -/
theorem newNum_zero_one_not_singletons :
    (newNum newDAG 0).1 ≠ newDAG.zeroId ∧
    (newNum newDAG 1).1 ≠ newDAG.oneId ∧
    (newNum (newNum newDAG 0).2 0).1 ≠ (newNum newDAG 0).1 := by
  decide

/-- C6 amended.  `newNum` always allocates a fresh `Value` node: the returned
uuid is the graph's current counter (which is then bumped), so whenever the
ZERO and ONE singletons were allocated earlier (their uuids lie below the
counter) the result is a different instance from both, and immediately
repeated construction yields distinct instances.  Only `newBool` returns
deduplicated singletons. -/
theorem newNum_always_allocates (d : DAG) (v : Int) :
    (newNum d v).1 = d.counter ∧
    (newNum d v).2.counter = d.counter + 1 ∧
    lookupNode (newNum d v).2 (newNum d v).1
      = some { data := .value (.numP v), lastEvaluated := -1, cachedValue := d.zeroId } ∧
    (d.zeroId < d.counter → (newNum d v).1 ≠ d.zeroId) ∧
    (d.oneId < d.counter → (newNum d v).1 ≠ d.oneId) ∧
    (newNum (newNum d v).2 v).1 ≠ (newNum d v).1 := by
  refine ⟨rfl, rfl, ?_, ?_, ?_, ?_⟩
  · unfold newNum allocNode lookupNode
    exact lookup_cons_self d.counter _ d.nodes
  · intro h
    exact (Nat.ne_of_lt h).symm
  · intro h
    exact (Nat.ne_of_lt h).symm
  · exact Nat.succ_ne_self d.counter

/-- Witness for C6's amended claim, on a fresh graph where ZERO (uuid 1) and
ONE (uuid 2) lie below the counter (5). -/
theorem newNum_always_allocates_witness :
    (newNum newDAG 0).1 = newDAG.counter ∧
    (newNum newDAG 0).1 ≠ newDAG.zeroId ∧
    (newNum newDAG 0).1 ≠ newDAG.oneId ∧
    (newNum (newNum newDAG 0).2 0).1 ≠ (newNum newDAG 0).1 := by
  have h := newNum_always_allocates newDAG 0
  exact ⟨h.1, h.2.2.2.1 (by decide), h.2.2.2.2.1 (by decide), h.2.2.2.2.2⟩

/-- C7.  Boolean literal construction and units interning preserve identity:
`newBool` returns the graph's TRUE/FALSE singleton without allocating (so
repeated calls return the identical instance), and interning two
permutation-equal numerator/denominator list pairs returns the identical
interned `Units` instance, leaving the graph unchanged on the second call. -/
theorem bool_and_units_identity :
    (∀ d : DAG, newBool d true = (d.trueId, d) ∧ newBool d false = (d.falseId, d)) ∧
    (∀ (d : DAG) (n1 e1 n2 e2 : List String), n1.Perm n2 → e1.Perm e2 →
      newUnits (newUnits d n1 e1).2 n2 e2 = newUnits d n1 e1) := by
  constructor
  · intro d
    exact ⟨rfl, rfl⟩
  · intro d n1 e1 n2 e2 hn he
    have hk : unitsKey n2 e2 = unitsKey n1 e1 :=
      unitsKey_eq_of_perm n2 e2 n1 e1 hn.symm he.symm
    unfold newUnits
    simp only [hk]
    cases hl : d.unitsMap.lookup (unitsKey n1 e1) with
    | some uid => simp only [hl]
    | none => simp only [hl, lookup_cons_self]

/-- Witness for C7: two `newBool true` calls on a fresh graph return the TRUE
singleton (uuid 3) with the graph unchanged, and
`newUnits(["a","b","c"],["c","d"])` then `newUnits(["c","a","b"],["d","c"])`
return the identical interned instance. -/
theorem bool_and_units_identity_witness :
    newBool newDAG true = (newDAG.trueId, newDAG) ∧
    newUnits (newUnits newDAG ["a", "b", "c"] ["c", "d"]).2 ["c", "a", "b"] ["d", "c"]
      = newUnits newDAG ["a", "b", "c"] ["c", "d"] :=
  ⟨(bool_and_units_identity.1 newDAG).1,
   bool_and_units_identity.2 newDAG ["a", "b", "c"] ["c", "d"] ["c", "a", "b"] ["d", "c"]
     (by decide) (by decide)⟩

/-- C8.  `VarRef.eval` on a name with no Var in the graph returns the graph's
NULL singleton and leaves the graph untouched — it never raises an error. -/
theorem varref_undefined_eval_null (fuel : Nat) (d : DAG) (uid : Nat)
    (name : String) (nd : Node)
    (h1 : lookupNode d uid = some nd) (h2 : nd.data = .varref name)
    (h3 : lookupVar d name = none) :
    evalF (fuel + 1) d uid = some (.ok (d.nullId, d)) := by
  unfold evalF
  simp only [h1, h2, h3]

/-- Witness for C8: evaluating a `VarRef "nope"` (uuid 5) on a graph with an
empty variable table yields the NULL singleton (uuid 0) without error. -/
theorem varref_undefined_eval_null_witness :
    evalF 1 (newVarRef newDAG "nope").2 5
      = some (.ok (((newVarRef newDAG "nope").2).nullId, (newVarRef newDAG "nope").2)) :=
  varref_undefined_eval_null 0 (newVarRef newDAG "nope").2 5 "nope"
    { data := .varref "nope", lastEvaluated := -1, cachedValue := 1 } rfl rfl rfl

/-- C3, evaluated at the failing input.  With `x = 3` and the expression
`e = +(VarRef x, 2)` (uuid 8): the first `latestValue` read computes 5 and
invokes `+` once; the second read returns the identical cached node without a
further invocation (the claim's first half holds).  But after successfully
redefining `x` to the literal 10, the next read still returns the stale
cached node with payload 5 — not a recomputation to 12 — and performs no new
invocation, because `lastModified` never advances and the staleness test
`lastEvaluated < lastModified` stays false.  This contradicts the claim's
second half (and the spec's generation-based invalidation). -/
theorem memoization_stale_after_redefinition :
    memoR1.2.funcInvocations = ["+"] ∧
    getPrim memoR1.2 memoR1.1 = some (.numP 5) ∧
    memoR2.1 = memoR1.1 ∧
    memoR2.2.funcInvocations = ["+"] ∧
    lookupVar memo3 "x" = some 10 ∧
    getPrim memo3 10 = some (.numP 10) ∧
    memoR3.1 = memoR1.1 ∧
    getPrim memoR3.2 memoR3.1 = some (.numP 5) ∧
    getPrim memoR3.2 memoR3.1 ≠ some (.numP 12) ∧
    memoR3.2.funcInvocations = ["+"] := by
  decide

/-- C9 counterexample.  With `f` registered and `g` unregistered, evaluating
the FuncCall `f(g(3))` (uuid 7) raises an invalid-reference error even though
its own name `f` is registered — the claimed "only if its name is not
registered" direction fails for errors arising from argument evaluation. -/
theorem funccall_invalidref_despite_registered_name :
    (getFunc ivr1 "f").isSome = true ∧
    evalF 9 ivr1 7 = some (.error (.invalidRef "g")) := by
  exact ⟨rfl, rfl⟩

/-- C9 amended.  Construction of a FuncCall never validates the name: for any
name whatsoever, `newFunc` installs the node.  At evaluation time, after the
arguments have been evaluated: an argument-evaluation error propagates; a
name unregistered at that moment raises the invalid-reference error naming
it; and a registered name has its function invoked on the children's
evaluated values, the result being returned (as a freshly allocated `Value`
node whose payload is the function's result, with the invocation recorded).
So evaluation raises an invalid-reference error exactly when the FuncCall's
own name is unregistered or an argument's evaluation raises one. -/
theorem newFunc_unvalidated_eval_registry_checked :
    (∀ (d0 : DAG) (name : String) (as : List Nat),
      lookupNode (newFunc d0 name as).2 (newFunc d0 name as).1
        = some { data := .funccall name as, lastEvaluated := -1, cachedValue := d0.zeroId }) ∧
    (∀ (fuel : Nat) (d : DAG) (uid : Nat) (fname : String) (args : List Nat)
        (nd : Node) (e : DagError),
      lookupNode d uid = some nd → nd.data = .funccall fname args →
      evalArgsF fuel d args = some (.error e) →
      evalF (fuel + 1) d uid = some (.error e)) ∧
    (∀ (fuel : Nat) (d : DAG) (uid : Nat) (fname : String) (args : List Nat)
        (nd : Node) (vals : List Nat) (d1 : DAG),
      lookupNode d uid = some nd → nd.data = .funccall fname args →
      evalArgsF fuel d args = some (.ok (vals, d1)) →
      getFunc d1 fname = none →
      evalF (fuel + 1) d uid = some (.error (.invalidRef fname))) ∧
    (∀ (fuel : Nat) (d : DAG) (uid : Nat) (fname : String) (args : List Nat)
        (nd : Node) (vals : List Nat) (d1 : DAG) (f : List Prim → Prim)
        (prims : List Prim),
      lookupNode d uid = some nd → nd.data = .funccall fname args →
      evalArgsF fuel d args = some (.ok (vals, d1)) →
      getFunc d1 fname = some f →
      vals.mapM (fun v => getPrim d1 v) = some prims →
      evalF (fuel + 1) d uid
        = some (.ok (allocNode
            { d1 with funcInvocations := fname :: d1.funcInvocations }
            (.value (f prims))))) := by
  refine ⟨?_, ?_, ?_, ?_⟩
  · intro d0 name as
    unfold newFunc allocNode lookupNode
    exact lookup_cons_self d0.counter _ d0.nodes
  · intro fuel d uid fname args nd e h1 h2 h3
    unfold evalF
    simp only [h1, h2, h3]
  · intro fuel d uid fname args nd vals d1 h1 h2 h3 h4
    unfold evalF
    simp only [h1, h2, h3, h4]
  · intro fuel d uid fname args nd vals d1 f prims h1 h2 h3 h4 h5
    unfold evalF
    simp only [h1, h2, h3, h4, h5]

/-- Witness for C9's amended claim: constructing `g(3)` succeeds although `g`
is unregistered; evaluating it (uuid 6 in `ivr1`) raises the
invalid-reference error naming `g`; the error propagates out of evaluating
`f(g(3))` (uuid 7); and evaluating `f(3)` (uuid 6 in `ivrOK`), whose name is
registered, invokes `constZero` on the evaluated argument `[3]` and returns
its result in a fresh `Value` node. -/
theorem newFunc_unvalidated_eval_registry_checked_witness :
    lookupNode ivr1 6
      = some { data := .funccall "g" [5], lastEvaluated := -1, cachedValue := 1 } ∧
    evalF 9 ivr1 6 = some (.error (.invalidRef "g")) ∧
    evalF 9 ivr1 7 = some (.error (.invalidRef "g")) ∧
    evalF 9 ivrOK 6
      = some (.ok (allocNode
          { ivrOK with funcInvocations := "f" :: ivrOK.funcInvocations }
          (.value (constZero [.numP 3])))) :=
  ⟨rfl,
   newFunc_unvalidated_eval_registry_checked.2.2.1 8 ivr1 6 "g" [5]
     { data := .funccall "g" [5], lastEvaluated := -1, cachedValue := 1 }
     [5] ivr1 rfl rfl rfl rfl,
   newFunc_unvalidated_eval_registry_checked.2.1 8 ivr1 7 "f" [6]
     { data := .funccall "f" [6], lastEvaluated := -1, cachedValue := 1 }
     (.invalidRef "g") rfl rfl rfl,
   newFunc_unvalidated_eval_registry_checked.2.2.2 8 ivrOK 6 "f" [5]
     { data := .funccall "f" [5], lastEvaluated := -1, cachedValue := 1 }
     [5] ivrOK constZero [.numP 3] rfl rfl rfl rfl rfl⟩

/-- C4.  Precedence climbing: `parse(rbp)` consumes one item and seeds `left`
via `nud`, then runs the led loop; the loop, facing a lookahead operator
whose binding power does not strictly exceed `rbp`, stops and returns `left`
without consuming it; facing one whose power strictly exceeds `rbp`, it
consumes it via `led` and folds the result back into `left`; and `led` on a
LEFT-associative operator builds the binary FuncCall `op(left, parse(op.bp))`.
Consequently, with the standard table, the chain `1 + 2 + 3` resolves to
`+(+(1,2), 3)`. -/
theorem resolver_precedence_climbing :
    (∀ (α : Type) (fuel : Nat) (tbl : List (String × Operator)) (rbp : Int)
        (t : Tok α) (rest : List (Tok α)) (left : RTree α) (rest1 : List (Tok α)),
      nudF fuel tbl t rest = some (.ok (left, rest1)) →
      parseChainF (fuel + 1) tbl rbp (t :: rest) = ledLoopF fuel tbl rbp left rest1) ∧
    (∀ (α : Type) (fuel : Nat) (tbl : List (String × Operator)) (rbp : Int)
        (left : RTree α) (s : String) (rest : List (Tok α)) (o : Operator),
      tbl.lookup s = some o → o.bp ≤ rbp →
      ledLoopF (fuel + 1) tbl rbp left (.opTok s :: rest)
        = some (.ok (left, .opTok s :: rest))) ∧
    (∀ (α : Type) (fuel : Nat) (tbl : List (String × Operator)) (rbp : Int)
        (left : RTree α) (s : String) (rest : List (Tok α)) (o : Operator)
        (left1 : RTree α) (rest1 : List (Tok α)),
      tbl.lookup s = some o → rbp < o.bp →
      ledF fuel tbl s left rest = some (.ok (left1, rest1)) →
      ledLoopF (fuel + 1) tbl rbp left (.opTok s :: rest)
        = ledLoopF fuel tbl rbp left1 rest1) ∧
    (∀ (α : Type) (fuel : Nat) (tbl : List (String × Operator)) (s : String)
        (left : RTree α) (rest : List (Tok α)) (o : Operator) (e : RTree α)
        (rest1 : List (Tok α)),
      tbl.lookup s = some o → o.assoc = .left →
      parseChainF fuel tbl o.bp rest = some (.ok (e, rest1)) →
      ledF (fuel + 1) tbl s left rest = some (.ok (.call s [left, e], rest1))) ∧
    resolveChain 20 stdTable
        [Tok.termTok (1 : Int), .opTok "+", .termTok 2, .opTok "+", .termTok 3]
      = some (.ok (.call "+" [.call "+" [.term 1, .term 2], .term 3])) := by
  refine ⟨?_, ?_, ?_, ?_, rfl⟩
  · intro α fuel tbl rbp t rest left rest1 h
    unfold parseChainF
    simp only [h]
  · intro α fuel tbl rbp left s rest o ho hbp
    have hlt : ¬ rbp < o.bp := not_lt.mpr hbp
    unfold ledLoopF
    simp only [ho, hlt, if_false]
  · intro α fuel tbl rbp left s rest o left1 rest1 ho hbp hled
    conv_lhs => unfold ledLoopF
    simp only [ho, hbp, if_true, hled]
  · intro α fuel tbl s left rest o e rest1 ho ha hp
    unfold ledF
    simp only [ho, ha, hp]

/-- Witness for C4, on the standard table: `parse` seeds with `nud` on the
term 1; the loop facing `+` (power 10) under threshold 10 stops without
consuming; facing `+` under threshold 0 it consumes via `led`; LEFT `led` on
`+` builds `+(1, parse(10))` giving `+(1, 2)`; and `1 + 2 + 3` resolves to
`+(+(1,2), 3)`. -/
theorem resolver_precedence_climbing_witness :
    parseChainF 6 stdTable 0
        [Tok.termTok (1 : Int), .opTok "+", .termTok 2]
      = ledLoopF 5 stdTable 0 (.term 1) [.opTok "+", .termTok 2] ∧
    ledLoopF 6 stdTable 10 (RTree.term (1 : Int)) [.opTok "+", .termTok 2]
      = some (.ok (.term 1, [.opTok "+", .termTok 2])) ∧
    ledLoopF 6 stdTable 0 (RTree.term (1 : Int)) [.opTok "+", .termTok 2]
      = ledLoopF 5 stdTable 0 (.call "+" [.term 1, .term 2]) [] ∧
    ledF 6 stdTable "+" (RTree.term (1 : Int)) [.termTok 2]
      = some (.ok (.call "+" [.term 1, .term 2], [])) ∧
    resolveChain 20 stdTable
        [Tok.termTok (1 : Int), .opTok "+", .termTok 2, .opTok "+", .termTok 3]
      = some (.ok (.call "+" [.call "+" [.term 1, .term 2], .term 3])) :=
  ⟨resolver_precedence_climbing.1 Int 5 stdTable 0 (.termTok 1)
     [.opTok "+", .termTok 2] (.term 1) [.opTok "+", .termTok 2] rfl,
   resolver_precedence_climbing.2.1 Int 5 stdTable 10 (.term 1) "+"
     [.termTok 2] { op := "+", bp := 10, assoc := .left, prefixBP := 100 } rfl (by decide),
   resolver_precedence_climbing.2.2.1 Int 5 stdTable 0 (.term 1) "+"
     [.termTok 2] { op := "+", bp := 10, assoc := .left, prefixBP := 100 }
     (.call "+" [.term 1, .term 2]) [] rfl (by decide) rfl,
   resolver_precedence_climbing.2.2.2.1 Int 5 stdTable "+" (.term 1)
     [.termTok 2] { op := "+", bp := 10, assoc := .left, prefixBP := 100 }
     (.term 2) [] rfl rfl rfl,
   resolver_precedence_climbing.2.2.2.2⟩

/-- C5.  `nud` on an operator item: when the operator carries a usable
leading binding power (`prefixBP >= 0`), it builds the unary FuncCall named
for the operator whose sole argument is `parse(prefixBP)`; when it does not
(`prefixBP < 0`, the constructor default), the resolver fails with the
not-a-valid-prefix-operator error.  Consequently, with the standard table,
the chain `- 3` resolves to the unary `-(3)`. -/
theorem resolver_nud_unary :
    (∀ (α : Type) (fuel : Nat) (tbl : List (String × Operator)) (s : String)
        (rest : List (Tok α)) (o : Operator) (e : RTree α) (rest1 : List (Tok α)),
      tbl.lookup s = some o → ¬ o.prefixBP < 0 →
      parseChainF fuel tbl o.prefixBP rest = some (.ok (e, rest1)) →
      nudF (fuel + 1) tbl (.opTok s) rest = some (.ok (.call s [e], rest1))) ∧
    (∀ (α : Type) (fuel : Nat) (tbl : List (String × Operator)) (s : String)
        (rest : List (Tok α)) (o : Operator),
      tbl.lookup s = some o → o.prefixBP < 0 →
      nudF (fuel + 1) tbl (.opTok s) rest = some (.error (.notValidLeading s))) ∧
    resolveChain 20 stdTable [Tok.opTok "-", .termTok (3 : Int)]
      = some (.ok (.call "-" [.term 3])) := by
  refine ⟨?_, ?_, rfl⟩
  · intro α fuel tbl s rest o e rest1 ho hbp hp
    unfold nudF
    simp only [ho, hbp, if_false, hp]
  · intro α fuel tbl s rest o ho hbp
    unfold nudF
    simp only [ho, hbp, if_true]

/-- Witness for C5, on the standard table: `-` (leading power 100) in leading
position builds `-(parse(100))` on the chain tail `[3]`, giving `-(3)`;
`*` has no leading power (`prefixBP = -1`), so `nud` on `*` fails with the
not-a-valid-prefix-operator error; and `- 3` resolves to the unary `-(3)`. -/
theorem resolver_nud_unary_witness :
    nudF 6 stdTable (Tok.opTok "-") [Tok.termTok (3 : Int)]
      = some (.ok (.call "-" [.term 3], [])) ∧
    nudF 6 stdTable (Tok.opTok "*") ([] : List (Tok Int))
      = some (.error (.notValidLeading "*")) ∧
    resolveChain 20 stdTable [Tok.opTok "-", .termTok (3 : Int)]
      = some (.ok (.call "-" [.term 3])) :=
  ⟨resolver_nud_unary.1 Int 5 stdTable "-" [.termTok 3]
     { op := "-", bp := 10, assoc := .left, prefixBP := 100 } (.term 3) [] rfl
     (by decide) rfl,
   resolver_nud_unary.2.1 Int 5 stdTable "*" []
     { op := "*", bp := 30, assoc := .left, prefixBP := -1 } rfl (by decide),
   resolver_nud_unary.2.2⟩

end DagMath
